import Mathlib

/-!
Shallow embedding of the reimbursement-intake and audit tool: the claim data
model, field-schema validation, duplicate guard, identifier generator, audit
resolver and the claim-listing query, translated from the TypeScript source.
External collaborators (the pinyin transliteration library, the image
verification AI, the backing database) are modelled by passing their outcome
as an explicit argument, so every function here is a pure, executable
translation of the corresponding source function.
-/

namespace Reimburse

/-- A loosely-typed JavaScript value as stored in a form field or in the
open-ended `customFields` map. -/
inductive JValue where
  | jnull
  | jundefined
  | jstr (s : String)
  | jnum (q : ℚ)
  | jbool (b : Bool)
deriving DecidableEq, Repr

/-- JavaScript truthiness of a `string | null | undefined` slot:
`null`, `undefined` and the empty string are falsy. -/
def strTruthy : Option String → Bool
  | none => false
  | some s => s != ""

/-- `String.prototype.slice(0, n)` on a BMP string: the first `n` characters. -/
def jsSlice (s : String) (n : Nat) : String :=
  String.mk (s.toList.take n)

/-- `String.prototype.padStart(n, '0')`. -/
def padStartZ (n : Nat) (s : String) : String :=
  if n ≤ s.length then s else String.mk (List.replicate (n - s.length) '0') ++ s

/-- `String.prototype.trim()`: strip whitespace from both ends (character-list
formulation of `String.trim`). -/
def jsTrim (s : String) : String :=
  String.mk
    (((s.toList.dropWhile Char.isWhitespace).reverse.dropWhile Char.isWhitespace).reverse)

/-- `String.prototype.toLowerCase()` (character-list formulation). -/
def lowerString (s : String) : String := String.mk (s.toList.map Char.toLower)

/-- `String.prototype.toUpperCase()` (character-list formulation). -/
def upperString (s : String) : String := String.mk (s.toList.map Char.toUpper)

/-- `String.prototype.startsWith(p)` (character-list formulation). -/
def strStartsWith (p s : String) : Bool := p.toList.isPrefixOf s.toList

/-- The duplicate guard's normalisation `String(str || '').trim()` on a string
field: whitespace is trimmed, case is left as is. -/
def normalize (s : String) : String := jsTrim s

/-- Case- and whitespace-insensitive normalisation (NOT what the source does;
used to state the spec's claimed cross-claim invariant). -/
def ciNormalize (s : String) : String := lowerString (jsTrim s)

/-- Claim lifecycle status. -/
inductive Status where
  | pending
  | approved
  | rejected
deriving DecidableEq, Repr

/-- One atomic verification result from the image-verification collaborator
(`SingleCheckResult` in `types.ts`). -/
structure SingleCheckResult where
  verified : Bool
  extractedAmount : Option ℚ
  extractedText : Option String
  reason : String
deriving DecidableEq, Repr

/-- The bundle of the three independent checks (`AuditResult` in `types.ts`). -/
structure AuditResult where
  usdCheck : SingleCheckResult
  cnyCheck : SingleCheckResult
  orderCheck : SingleCheckResult
  timestamp : Nat
deriving DecidableEq, Repr

inductive UserRole where
  | admin
  | user
deriving DecidableEq, Repr

/-- `User` from `types.ts`. -/
structure User where
  id : String
  username : String
  password : String
  chineseName : String
  role : UserRole
  createdAt : Nat
deriving DecidableEq, Repr

/-- `ReimbursementItem` from `types.ts`, every field included. -/
structure ReimbursementItem where
  id : String
  userId : String
  userName : Option String
  autoId : String
  reimburser : String
  projectName : String
  storeName : String
  companySKU : String
  model : String
  orderId : String
  orderAmount : ℚ
  commission : ℚ
  currency : String
  paymentMethod : String
  reportAmountUSD : ℚ
  reimburseAmountCNY : ℚ
  clientPPAccount : String
  clientEmail : String
  itemReason : String
  source : String
  note : String
  exchangeRate : ℚ
  reviewID : String
  reviewScreenshot : Option String
  isTransferCommission : String
  isReviewDropped : String
  communicationChannel : String
  paymentCardLastDigits : String
  ppTransferScreenshotPrincipal : Option String
  creditCardDeductionScreenshotPrincipal : Option String
  ppTransferScreenshotCommission : Option String
  creditCardDeductionScreenshotCommission : Option String
  ppDeductionScreenshotTax : Option String
  orderIdScreenshot : Option String
  chatScreenshot : Option String
  reviewLink : String
  clientProfile : String
  customFields : List (String × JValue)
  status : Status
  auditResult : Option AuditResult
  createdAt : Nat
deriving DecidableEq, Repr

/-- A blank claim record, used to build concrete test inputs. -/
def blankItem : ReimbursementItem where
  id := ""
  userId := ""
  userName := none
  autoId := ""
  reimburser := ""
  projectName := ""
  storeName := ""
  companySKU := ""
  model := ""
  orderId := ""
  orderAmount := 0
  commission := 0
  currency := ""
  paymentMethod := ""
  reportAmountUSD := 0
  reimburseAmountCNY := 0
  clientPPAccount := ""
  clientEmail := ""
  itemReason := ""
  source := ""
  note := ""
  exchangeRate := 0
  reviewID := ""
  reviewScreenshot := none
  isTransferCommission := ""
  isReviewDropped := ""
  communicationChannel := ""
  paymentCardLastDigits := ""
  ppTransferScreenshotPrincipal := none
  creditCardDeductionScreenshotPrincipal := none
  ppTransferScreenshotCommission := none
  creditCardDeductionScreenshotCommission := none
  ppDeductionScreenshotTax := none
  orderIdScreenshot := none
  chatScreenshot := none
  reviewLink := ""
  clientProfile := ""
  customFields := []
  status := .pending
  auditResult := none
  createdAt := 0

/-! ### Audit resolver (`runAuditForItem` in the audit table component) -/

/-- The status-derivation chain inside `runAuditForItem`, translated clause by
clause from the source: `result` is the bundle returned by `performFullAudit`,
`cnyAttempted` is `!!item.creditCardDeductionScreenshotPrincipal`. -/
def deriveStatus (result : AuditResult) (cnyAttempted : Bool) : Status :=
  if !result.usdCheck.verified && result.usdCheck.extractedAmount.isSome then
    .rejected
  else if !result.orderCheck.verified && strTruthy result.orderCheck.extractedText then
    .rejected
  else if cnyAttempted && !result.cnyCheck.verified && result.cnyCheck.extractedAmount.isSome then
    .rejected
  else if result.usdCheck.verified && result.orderCheck.verified
            && (!cnyAttempted || result.cnyCheck.verified) then
    .approved
  else
    .pending

/-- The status-derivation policy exactly as the specification words it: five
rules evaluated in precedence order, first match wins. Written independently
of `deriveStatus` so their agreement can be proved. -/
def specAuditStatus (result : AuditResult) (cnySupplied : Bool) : Status :=
  if result.usdCheck.verified = false ∧ result.usdCheck.extractedAmount ≠ none then
    .rejected
  else if result.orderCheck.verified = false ∧
          (∃ s, result.orderCheck.extractedText = some s ∧ s ≠ "") then
    .rejected
  else if cnySupplied = true ∧ result.cnyCheck.verified = false ∧
          result.cnyCheck.extractedAmount ≠ none then
    .rejected
  else if result.usdCheck.verified = true ∧ result.orderCheck.verified = true ∧
          (cnySupplied = false ∨ result.cnyCheck.verified = true) then
    .approved
  else
    .pending

/-- The only hard failure `runAuditForItem` can raise itself: no usable
evidence image ("无截图 (No Screenshots)"). -/
inductive AuditError where
  | noEvidence
deriving DecidableEq, Repr

/-- `runAuditForItem`: the three-check bundle `collab` stands for the value the
external collaborator call `performFullAudit` resolved with. The function
fails before touching the claim when both primary evidence slots are falsy,
and otherwise returns `{ ...item, auditResult: result, status: newStatus }`. -/
def runAuditForItem (item : ReimbursementItem) (collab : AuditResult) :
    Except AuditError ReimbursementItem :=
  let hasMainProof := strTruthy item.ppTransferScreenshotPrincipal
  let hasOrderProof := strTruthy item.orderIdScreenshot
  if !hasMainProof && !hasOrderProof then
    .error .noEvidence
  else
    let cnyAttempted := strTruthy item.creditCardDeductionScreenshotPrincipal
    .ok { item with
            auditResult := some collab
            status := deriveStatus collab cnyAttempted }

/-- The single-item verify handler (`handleVerifySingle` + `handleAuditUpdate`):
on success the updated claim replaces the matching row of the in-memory list
and is written through the store; on failure nothing is updated. -/
def processAuditUpdate (store : List ReimbursementItem) (item : ReimbursementItem)
    (collab : AuditResult) : List ReimbursementItem :=
  match runAuditForItem item collab with
  | .error _ => store
  | .ok updated => store.map (fun i => if i.id = updated.id then updated else i)

/-! ### Duplicate guard (duplicate check inside `handleSubmit`) -/

/-- The duplicate check of the submission/edit form: `candOrderId` and
`candReason` are the candidate's `orderId` and `itemReason`, `editId` is
`initialData?.id` (present when editing), `items` the claim snapshot. Returns
`true` when submission is blocked. -/
def duplicateGuardRejects (candOrderId candReason : String) (editId : Option String)
    (items : List ReimbursementItem) : Bool :=
  let currentOrderId := normalize candOrderId
  let currentReason := normalize candReason
  if currentOrderId != "" && currentReason != "" then
    (items.find? (fun i =>
        i.id != editId.getD "" &&
        normalize i.orderId == currentOrderId &&
        normalize i.itemReason == currentReason)).isSome
  else
    false

/-! ### Field schema engine (validation loop inside `handleSubmit`) -/

/-- Field type of a configurable form field. -/
inductive FieldType where
  | text
  | number
  | select
  | email
  | file
deriving DecidableEq, Repr

/-- `FormFieldConfig` from `types.ts` (`section` renamed `sectionKey`). -/
structure FormFieldConfig where
  id : String
  label : String
  ftype : FieldType
  sectionKey : String
  required : Bool
  options : List String
  systemKey : Option String
  isSystem : Bool
deriving DecidableEq, Repr

/-- Association-list lookup into a JavaScript object; an absent key reads as
`undefined`. -/
def lookupVal (m : List (String × JValue)) (k : String) : JValue :=
  ((m.find? (fun p => p.1 == k)).map Prod.snd).getD .jundefined

/-- The form state: the claim's fixed business attributes viewed as a
JavaScript object (`(formData as any)[systemKey]`) plus the open-ended
`customFields` map. -/
structure FormData where
  sysValues : List (String × JValue)
  customFields : List (String × JValue)
deriving DecidableEq, Repr

/-- `getValue`: a field bound to a (truthy) system key reads the business
attribute, any other field reads `customFields[field.id]`. -/
def getValue (fd : FormData) (f : FormFieldConfig) : JValue :=
  match f.systemKey with
  | some k => if k ≠ "" then lookupVal fd.sysValues k else lookupVal fd.customFields f.id
  | none => lookupVal fd.customFields f.id

/-- `val === null || val === undefined || val === ''` — note that the number
zero and the boolean false are NOT missing. -/
def isMissingValue : JValue → Bool
  | .jnull => true
  | .jundefined => true
  | .jstr s => s == ""
  | .jnum _ => false
  | .jbool _ => false

/-- The validation loop of `handleSubmit`: walk the whole field configuration
and push the label of every required field whose resolved value is missing. -/
def collectMissingFields (cfg : List FormFieldConfig) (fd : FormData) : List String :=
  cfg.foldl
    (fun acc f => if f.required && isMissingValue (getValue fd f) then acc ++ [f.label] else acc)
    []

/-- `if (missingFields.length > 0) { …; return; }` — validation blocks the
submission exactly when at least one label was collected. -/
def validationRejects (cfg : List FormFieldConfig) (fd : FormData) : Bool :=
  (collectMissingFields cfg fd).length > 0

/-! ### Identifier generator (`generateReimbursementId` in `storageService.ts`)

The pinyin transliteration library is an external collaborator: its outcome is
passed in as `pinyinResult`, where `none` models a throw (or a non-array
return) and `some p` models the returned array of first-letter strings. The
ambient current date is passed in as `(year, month, day)`. -/

/-- The INITIALS computation: start from the first five characters of the
uppercased login name; when a Chinese display name is present and the
transliteration succeeds, replace them by the joined uppercased first letters
(with no length cap). -/
def initialsOf (user : User) (pinyinResult : Option (List String)) : String :=
  let fallback := jsSlice (upperString user.username) 5
  if user.chineseName ≠ "" then
    match pinyinResult with
    | some p => upperString (String.join p)
    | none => fallback
  else fallback

/-- `${year}${String(month).padStart(2,'0')}${String(day).padStart(2,'0')}`
with `month` already 1-based. -/
def dateString (year month day : Nat) : String :=
  toString year ++ padStartZ 2 (toString month) ++ padStartZ 2 (toString day)

/-- The INITIALS+date stem of a generated id. -/
def idStem (user : User) (pinyinResult : Option (List String))
    (year month day : Nat) : String :=
  initialsOf user pinyinResult ++ dateString year month day

/-- `allItems.filter(i => i.autoId && i.autoId.startsWith(prefix)).length`. -/
def countWithStem (stem : String) (allItems : List ReimbursementItem) : Nat :=
  (allItems.filter (fun i => i.autoId != "" && strStartsWith stem i.autoId)).length

/-- `generateReimbursementId`. -/
def generateReimbursementId (user : User) (allItems : List ReimbursementItem)
    (year month day : Nat) (pinyinResult : Option (List String)) : String :=
  let stem := idStem user pinyinResult year month day
  let sequence := padStartZ 3 (toString (countWithStem stem allItems + 1))
  stem ++ sequence

/-! ### Image-verification collaborator wrappers (`geminiService.ts`)

Each wrapper's interaction with the AI is modelled by an outcome argument:
`failure msg` is any thrown transport/SDK error carrying `msg` as its
`.message`, `emptyResponse` is a response with no text (the wrapper itself
throws "Empty AI response" and catches it), and the `data` constructor is a
successfully parsed JSON payload. -/

inductive AmountOutcome where
  | failure (message : String)
  | emptyResponse
  | payload (extractedAmount : ℚ) (matched : Bool) (reasoning : String)
deriving DecidableEq, Repr

inductive TextOutcome where
  | failure (message : String)
  | emptyResponse
  | payload (foundText : String) (matched : Bool) (reasoning : String)
deriving DecidableEq, Repr

/-- `` `AI Error: ${error.message || "Unknown error"}` `` -/
def aiErrorReason (message : String) : String :=
  "AI Error: " ++ (if message = "" then "Unknown error" else message)

/-- `performAmountCheck`: early return without calling the collaborator when
the screenshot slot is falsy; otherwise every collaborator failure is caught
and downgraded to a well-formed unverified result. -/
def performAmountCheck (imageBase64 : Option String) (outcome : AmountOutcome) :
    SingleCheckResult :=
  if !strTruthy imageBase64 then
    { verified := false, extractedAmount := none, extractedText := none
      reason := "No screenshot provided" }
  else
    match outcome with
    | .failure msg =>
        { verified := false, extractedAmount := none, extractedText := none
          reason := aiErrorReason msg }
    | .emptyResponse =>
        { verified := false, extractedAmount := none, extractedText := none
          reason := aiErrorReason "Empty AI response" }
    | .payload amt matched reasoning =>
        { verified := matched, extractedAmount := some amt, extractedText := none
          reason := reasoning }

/-- `performTextCheck`: early return when the screenshot slot or the target
text is falsy; failures are caught and downgraded the same way. -/
def performTextCheck (targetText : String) (imageBase64 : Option String)
    (outcome : TextOutcome) : SingleCheckResult :=
  if !strTruthy imageBase64 || targetText == "" then
    { verified := false, extractedAmount := none, extractedText := none
      reason := "No screenshot or Order ID provided" }
  else
    match outcome with
    | .failure msg =>
        { verified := false, extractedAmount := none, extractedText := none
          reason := aiErrorReason msg }
    | .emptyResponse =>
        { verified := false, extractedAmount := none, extractedText := none
          reason := aiErrorReason "Empty AI response" }
    | .payload found matched reasoning =>
        { verified := matched, extractedAmount := none, extractedText := some found
          reason := reasoning }

/-- `performFullAudit`: with no API key all three checks degrade to the same
error result; otherwise the three checks are evaluated independently, the
order-id check falling back to the USD screenshot when no dedicated order
screenshot exists. -/
def performFullAudit (screenshotUSD : Option String) (screenshotCNY : Option String)
    (orderId : String) (screenshotOrder : Option String) (apiKey : String)
    (usdOutcome cnyOutcome : AmountOutcome) (orderOutcome : TextOutcome)
    (timestamp : Nat) : AuditResult :=
  if apiKey = "" then
    let err : SingleCheckResult :=
      { verified := false, extractedAmount := none, extractedText := none
        reason := "Missing API Key" }
    { usdCheck := err, cnyCheck := err, orderCheck := err, timestamp := timestamp }
  else
    let orderTargetImage := if strTruthy screenshotOrder then screenshotOrder else screenshotUSD
    { usdCheck := performAmountCheck screenshotUSD usdOutcome
      cnyCheck := performAmountCheck screenshotCNY cnyOutcome
      orderCheck := performTextCheck orderId orderTargetImage orderOutcome
      timestamp := timestamp }

/-! ### Claim listing (`getReimbursements` in `storageService.ts`)

The backing database is an external collaborator; a stored row carries the
`id`, `user_id` and `created_at` columns plus the full claim in its JSONB
`data` column, and the query's filter/order/limit clauses are modelled with
their standard SQL semantics. A `storeError` flag models the query returning
an error. -/

structure StoreRow where
  rowId : String
  rowUserId : String
  data : ReimbursementItem
  rowCreatedAt : Nat
deriving DecidableEq, Repr

/-- The `.eq('user_id', currentUser.id)` filter, applied only for non-admins. -/
def scopedRows (store : List StoreRow) (currentUser : User) : List StoreRow :=
  if currentUser.role ≠ .admin then
    store.filter (fun r => r.rowUserId == currentUser.id)
  else store

/-- `.order('created_at', { ascending: false })`. -/
def orderedRows (store : List StoreRow) (currentUser : User) : List StoreRow :=
  (scopedRows store currentUser).mergeSort (fun a b => b.rowCreatedAt ≤ a.rowCreatedAt)

/-- `.limit(500)`. -/
def limitedRows (store : List StoreRow) (currentUser : User) : List StoreRow :=
  (orderedRows store currentUser).take 500

/-- `{ ...row.data, id: row.id }`. -/
def rowToItem (r : StoreRow) : ReimbursementItem :=
  { r.data with id := r.rowId }

/-- `getReimbursements`: on a store error return `[]`, otherwise map the
filtered, newest-first, 500-limited rows back to claims. -/
def getReimbursements (store : List StoreRow) (storeError : Bool)
    (currentUser : User) : List ReimbursementItem :=
  if storeError then []
  else (limitedRows store currentUser).map rowToItem

/-! ## Theorems -/

/-- C1: for every audited claim's bundle of three check results and CNY-image
flag, the status derived by the audit resolver equals the first matching rule
of the specification's five-rule precedence list: (1) USD not verified with a
non-null extracted amount → rejected; (2) order check not verified with
non-empty extracted text → rejected; (3) CNY image supplied, CNY not verified,
non-null extracted amount → rejected; (4) USD and order verified and (no CNY
image or CNY verified) → approved; (5) otherwise pending. -/
theorem audit_status_matches_spec (r : AuditResult) (cnySupplied : Bool) :
    deriveStatus r cnySupplied = specAuditStatus r cnySupplied := by
  rcases r with ⟨⟨uv, ua, ut, ur⟩, ⟨cv, ca, ct, cr⟩, ⟨ov, oa, ot, orr⟩, ts⟩
  simp only [deriveStatus, specAuditStatus]
  cases uv <;> cases ov <;> cases cv <;> cases cnySupplied <;>
    rcases ua with _ | a₁ <;> rcases ca with _ | a₂ <;> rcases ot with _ | t <;>
      simp [strTruthy, bne_iff_ne]

/-- A fully verified sample bundle from the collaborator, for concrete runs. -/
def sampleCheck : SingleCheckResult :=
  { verified := true, extractedAmount := none, extractedText := none, reason := "ok" }

def sampleAudit : AuditResult :=
  { usdCheck := sampleCheck, cnyCheck := sampleCheck, orderCheck := sampleCheck
    timestamp := 42 }

/-- C2: a claim with neither a USD transfer proof nor an order-id proof makes
the audit resolver fail with the no-evidence condition for every collaborator
bundle, and the single-item verify handler leaves every claim list unchanged
(no status change, no audit result written). -/
theorem no_evidence_fails_and_preserves (item : ReimbursementItem)
    (h₁ : strTruthy item.ppTransferScreenshotPrincipal = false)
    (h₂ : strTruthy item.orderIdScreenshot = false) :
    (∀ collab, runAuditForItem item collab = .error .noEvidence) ∧
    (∀ store collab, processAuditUpdate store item collab = store) := by
  constructor
  · intro collab
    simp [runAuditForItem, h₁, h₂]
  · intro store collab
    simp [processAuditUpdate, runAuditForItem, h₁, h₂]

/-- Witness for the C2 theorem: the blank claim has both slots empty. -/
theorem no_evidence_witness :
    runAuditForItem blankItem sampleAudit = .error .noEvidence ∧
    processAuditUpdate [blankItem] blankItem sampleAudit = [blankItem] :=
  ⟨(no_evidence_fails_and_preserves blankItem rfl rfl).1 sampleAudit,
   (no_evidence_fails_and_preserves blankItem rfl rfl).2 [blankItem] sampleAudit⟩

/-- C9: whenever the audit resolver completes successfully, the written-back
claim agrees with the input claim on every field — identity, auto id, owner
fields, business attributes, evidence slots, additional values, creation
timestamp — except `status` (which becomes the derived status) and
`auditResult` (which becomes the fresh bundle). -/
theorem audit_success_frame (item : ReimbursementItem) (collab : AuditResult)
    (u : ReimbursementItem) (h : runAuditForItem item collab = .ok u) :
    u.autoId = item.autoId ∧ u.id = item.id ∧ u.userId = item.userId ∧
    u.userName = item.userName ∧ u.reimburser = item.reimburser ∧
    u.projectName = item.projectName ∧ u.storeName = item.storeName ∧
    u.companySKU = item.companySKU ∧ u.model = item.model ∧
    u.orderId = item.orderId ∧ u.orderAmount = item.orderAmount ∧
    u.commission = item.commission ∧ u.currency = item.currency ∧
    u.paymentMethod = item.paymentMethod ∧
    u.reportAmountUSD = item.reportAmountUSD ∧
    u.reimburseAmountCNY = item.reimburseAmountCNY ∧
    u.clientPPAccount = item.clientPPAccount ∧ u.clientEmail = item.clientEmail ∧
    u.itemReason = item.itemReason ∧ u.source = item.source ∧ u.note = item.note ∧
    u.exchangeRate = item.exchangeRate ∧ u.reviewID = item.reviewID ∧
    u.reviewScreenshot = item.reviewScreenshot ∧
    u.isTransferCommission = item.isTransferCommission ∧
    u.isReviewDropped = item.isReviewDropped ∧
    u.communicationChannel = item.communicationChannel ∧
    u.paymentCardLastDigits = item.paymentCardLastDigits ∧
    u.ppTransferScreenshotPrincipal = item.ppTransferScreenshotPrincipal ∧
    u.creditCardDeductionScreenshotPrincipal
      = item.creditCardDeductionScreenshotPrincipal ∧
    u.ppTransferScreenshotCommission = item.ppTransferScreenshotCommission ∧
    u.creditCardDeductionScreenshotCommission
      = item.creditCardDeductionScreenshotCommission ∧
    u.ppDeductionScreenshotTax = item.ppDeductionScreenshotTax ∧
    u.orderIdScreenshot = item.orderIdScreenshot ∧
    u.chatScreenshot = item.chatScreenshot ∧ u.reviewLink = item.reviewLink ∧
    u.clientProfile = item.clientProfile ∧ u.customFields = item.customFields ∧
    u.createdAt = item.createdAt ∧
    u.auditResult = some collab ∧
    u.status
      = deriveStatus collab (strTruthy item.creditCardDeductionScreenshotPrincipal) := by
  simp only [runAuditForItem] at h
  split at h
  · exact absurd h (by simp)
  · injection h with h
    subst h
    exact ⟨rfl, rfl, rfl, rfl, rfl, rfl, rfl, rfl, rfl, rfl, rfl, rfl, rfl, rfl,
      rfl, rfl, rfl, rfl, rfl, rfl, rfl, rfl, rfl, rfl, rfl, rfl, rfl, rfl, rfl,
      rfl, rfl, rfl, rfl, rfl, rfl, rfl, rfl, rfl, rfl, rfl, rfl⟩

/-- A claim holding a USD transfer proof, for concrete audit runs. -/
def auditableItem : ReimbursementItem :=
  { blankItem with id := "row-1", ppTransferScreenshotPrincipal := some "img-data" }

/-- The record the resolver writes back for `auditableItem` and `sampleAudit`. -/
def auditedItem : ReimbursementItem :=
  { auditableItem with status := .approved, auditResult := some sampleAudit }

/-- Witness for the C9 theorem at a concrete successful audit run. -/
theorem audit_success_frame_witness : auditedItem.autoId = auditableItem.autoId :=
  (audit_success_frame auditableItem sampleAudit auditedItem (by rfl)).1

/-- Helper: exact characterisation of when the duplicate guard blocks a
submission (shared by the duplicate-guard and invariant claims). -/
lemma dupGuard_spec (candOrderId candReason : String) (editId : Option String)
    (items : List ReimbursementItem) :
    duplicateGuardRejects candOrderId candReason editId items = true ↔
      (normalize candOrderId ≠ "" ∧ normalize candReason ≠ "" ∧
        ∃ i ∈ items, i.id ≠ editId.getD "" ∧
          normalize i.orderId = normalize candOrderId ∧
          normalize i.itemReason = normalize candReason) := by
  simp only [duplicateGuardRejects]
  split_ifs with h
  · simp only [Bool.and_eq_true, bne_iff_ne, ne_eq] at h
    simp [List.find?_isSome, h.1, h.2, Bool.and_eq_true, bne_iff_ne, beq_iff_eq,
      and_assoc]
  · simp only [Bool.and_eq_true, bne_iff_ne, ne_eq] at h
    constructor
    · intro hfalse
      exact absurd hfalse (by simp)
    · rintro ⟨h1, h2, -⟩
      exact absurd ⟨h1, h2⟩ h

/-- C3: the duplicate guard signals a duplicate if and only if the candidate's
trimmed order id and trimmed expense-attribute are both non-empty and some
claim in the snapshot whose id differs from the edited claim's id (the empty
string when no claim is being edited) carries the same trimmed order id and
the same trimmed expense-attribute under case-sensitive string equality; in
particular a candidate with a blank trimmed order id or expense-attribute is
never flagged. -/
theorem duplicate_guard_iff (candOrderId candReason : String) (editId : Option String)
    (items : List ReimbursementItem) :
    duplicateGuardRejects candOrderId candReason editId items = true ↔
      (normalize candOrderId ≠ "" ∧ normalize candReason ≠ "" ∧
        ∃ i ∈ items, i.id ≠ editId.getD "" ∧
          normalize i.orderId = normalize candOrderId ∧
          normalize i.itemReason = normalize candReason) :=
  dupGuard_spec candOrderId candReason editId items

/-- An existing claim with a non-empty (order id, expense-attribute) pair. -/
def existingItem : ReimbursementItem :=
  { blankItem with id := "existing-1", orderId := "ORD100", itemReason := "principal" }

/-- C5, counterexample: the spec's cross-claim invariant claims uniqueness of
the (order id, expense-attribute) pair under case- AND whitespace-insensitive
comparison, but the guard compares case-sensitively: the candidate
("ord100", "principal") is accepted although "ORD100"/"ord100" coincide once
case-folded. -/
theorem pair_uniqueness_ci_counterexample :
    ¬ (∀ (items : List ReimbursementItem) (candOrderId candReason : String),
        duplicateGuardRejects candOrderId candReason none items = false →
        ∀ i ∈ items,
          ¬(ciNormalize i.orderId = ciNormalize candOrderId ∧
            ciNormalize i.itemReason = ciNormalize candReason)) := by
  intro h
  exact h [existingItem] "ord100" "principal" (by decide) existingItem (.head _)
    ⟨by decide, by decide⟩

/-- C5, amended: for a candidate accepted by the duplicate guard whose trimmed
order id and trimmed expense-attribute are both non-empty, no claim of the
snapshot other than the one being edited carries the same trimmed order id
and trimmed expense-attribute — the pair is unique up to surrounding
whitespace only, with case-sensitive comparison. -/
theorem pair_uniqueness_trimmed (items : List ReimbursementItem)
    (candOrderId candReason : String) (editId : Option String)
    (hacc : duplicateGuardRejects candOrderId candReason editId items = false)
    (hO : normalize candOrderId ≠ "") (hR : normalize candReason ≠ "") :
    ∀ i ∈ items, i.id ≠ editId.getD "" →
      ¬(normalize i.orderId = normalize candOrderId ∧
        normalize i.itemReason = normalize candReason) := by
  intro i hi hid ⟨h1, h2⟩
  have : duplicateGuardRejects candOrderId candReason editId items = true :=
    (dupGuard_spec candOrderId candReason editId items).mpr
      ⟨hO, hR, i, hi, hid, h1, h2⟩
  rw [hacc] at this
  exact Bool.false_ne_true this

/-- Witness for the amended C5 theorem at a concrete accepted submission. -/
theorem pair_uniqueness_trimmed_witness :
    ¬(normalize existingItem.orderId = normalize "ORD200" ∧
      normalize existingItem.itemReason = normalize "principal") :=
  pair_uniqueness_trimmed [existingItem] "ORD200" "principal" none
    (by decide) (by decide) (by decide) existingItem (.head _) (by decide)

/-- C4: the generated claim id is the INITIALS+YYYYMMDD stem followed by the
3-digit zero-padded value of (count of existing claims whose auto id starts
with that stem) + 1; the generator is a pure function of (user, claim set,
date, transliteration outcome), hence deterministic for fixed inputs; and
adding one claim whose auto id starts with the same stem moves the sequence
from count + 1 to count + 2, i.e. increments it by exactly one. -/
theorem generate_id_format_and_increment (user : User)
    (allItems : List ReimbursementItem) (year month day : Nat)
    (p : Option (List String)) :
    generateReimbursementId user allItems year month day p =
      idStem user p year month day ++
        padStartZ 3 (toString (countWithStem (idStem user p year month day) allItems + 1)) ∧
    (∀ x : ReimbursementItem, x.autoId ≠ "" →
      strStartsWith (idStem user p year month day) x.autoId = true →
      generateReimbursementId user (x :: allItems) year month day p =
        idStem user p year month day ++
          padStartZ 3 (toString (countWithStem (idStem user p year month day) allItems + 2))) := by
  refine ⟨rfl, ?_⟩
  intro x hne hpre
  have hcount :
      countWithStem (idStem user p year month day) (x :: allItems) =
        countWithStem (idStem user p year month day) allItems + 1 := by
    simp [countWithStem, List.filter_cons, hpre, bne_iff_ne, hne]
  simp [generateReimbursementId, hcount]

/-- The user 张三 of the specification's end-to-end scenario. -/
def zsUser : User :=
  { id := "u-zs", username := "zhangsan", password := "pw", chineseName := "张三"
    role := .user, createdAt := 0 }

/-- A claim already carrying the id ZS20240315001. -/
def zsItem : ReimbursementItem :=
  { blankItem with id := "zs-1", autoId := "ZS20240315001" }

/-- Witness for the C4 theorem: with one same-stem claim present the sequence
becomes 002. -/
theorem generate_id_witness :
    generateReimbursementId zsUser [zsItem] 2024 3 15 (some ["z", "s"]) =
      idStem zsUser (some ["z", "s"]) 2024 3 15 ++
        padStartZ 3 (toString (countWithStem (idStem zsUser (some ["z", "s"]) 2024 3 15) [] + 2)) :=
  (generate_id_format_and_increment zsUser [] 2024 3 15 (some ["z", "s"])).2
    zsItem (by decide) (by decide)

/-- A user whose Chinese display name has six characters. -/
def sixCharUser : User :=
  { id := "u-6", username := "zhangwei", password := "pw"
    chineseName := "张三丰张三丰", role := .user, createdAt := 0 }

/-- C6, counterexample: the claim caps INITIALS at five characters, but the
transliteration branch applies no cap — a six-character display name whose
per-character first letters are z,s,f,z,s,f yields the six-character
initials "ZSFZSF". -/
theorem initials_cap_counterexample :
    ¬ (∀ (u : User) (p : Option (List String)), (initialsOf u p).length ≤ 5) := by
  intro h
  exact absurd (h sixCharUser (some ["z", "s", "f", "z", "s", "f"])) (by decide)

/-- Helper: a five-character slice never exceeds five characters. -/
lemma jsSlice_length_le (s : String) (n : Nat) : (jsSlice s n).length ≤ n := by
  have : (jsSlice s n).length = (s.toList.take n).length := rfl
  rw [this]
  exact List.length_take_le n s.toList

/-- C6, amended: the generator never throws and always produces an id of the
shape initials ++ date ++ sequence; when the display name is absent or the
transliteration fails, INITIALS is the first five characters of the uppercased
login name and so is at most five characters; but when the transliteration
succeeds on a non-Latin display name, INITIALS is the whole uppercased join of
the per-character first letters, with no five-character cap. -/
theorem initials_amended (u : User) (p : Option (List String)) :
    (u.chineseName = "" ∨ p = none →
      initialsOf u p = jsSlice (upperString u.username) 5 ∧ (initialsOf u p).length ≤ 5) ∧
    (∀ l, u.chineseName ≠ "" → p = some l →
      initialsOf u p = upperString (String.join l)) ∧
    (∀ (items : List ReimbursementItem) (year month day : Nat),
      generateReimbursementId u items year month day p =
        initialsOf u p ++ dateString year month day ++
          padStartZ 3
            (toString (countWithStem (initialsOf u p ++ dateString year month day) items + 1))) := by
  refine ⟨?_, ?_, ?_⟩
  · rintro (hc | hp)
    · rw [show initialsOf u p = jsSlice (upperString u.username) 5 by
        simp [initialsOf, hc]]
      exact ⟨rfl, jsSlice_length_le _ 5⟩
    · subst hp
      rw [show initialsOf u none = jsSlice (upperString u.username) 5 by
        simp [initialsOf]]
      exact ⟨rfl, jsSlice_length_le _ 5⟩
  · intro l hc hp
    subst hp
    simp [initialsOf, hc]
  · intro items year month day
    simp [generateReimbursementId, idStem, String.append_assoc]

/-- Witness for the amended C6 theorem: transliteration failure falls back to
the capped login-name initials. -/
theorem initials_amended_witness :
    initialsOf sixCharUser none = jsSlice (upperString sixCharUser.username) 5 :=
  ((initials_amended sixCharUser none).1 (Or.inr rfl)).1

/-- Helper: the label-pushing fold of the validation loop accumulates exactly
the labels of the fields satisfying the predicate, in configuration order. -/
lemma foldl_collect (p : FormFieldConfig → Bool) (cfg : List FormFieldConfig)
    (acc : List String) :
    cfg.foldl (fun a f => if p f then a ++ [f.label] else a) acc =
      acc ++ (cfg.filter p).map (fun f => f.label) := by
  induction cfg generalizing acc with
  | nil => simp
  | cons f t ih =>
      by_cases h : p f <;>
        simp [List.foldl_cons, List.filter_cons, h, ih, List.append_assoc]

/-- C7: the validation loop resolves each required field through the bound
business attribute when a (truthy) system key exists and through the
additional-values map otherwise (`getValue`), treats exactly
null/undefined/empty-string as missing — a numeric value, zero included, is
never missing — and collects the labels of ALL missing required fields in
configuration order in one pass; the submission passes validation if and only
if that list is empty. -/
theorem validation_collects_all (cfg : List FormFieldConfig) (fd : FormData) :
    collectMissingFields cfg fd =
      (cfg.filter (fun f => f.required && isMissingValue (getValue fd f))).map
        (fun f => f.label) ∧
    (∀ q : ℚ, isMissingValue (.jnum q) = false) ∧
    (validationRejects cfg fd = false ↔ collectMissingFields cfg fd = []) := by
  refine ⟨?_, fun _ => rfl, ?_⟩
  · have h := foldl_collect (fun f => f.required && isMissingValue (getValue fd f)) cfg []
    rw [List.nil_append] at h
    exact h
  · simp [validationRejects, Nat.pos_iff_ne_zero, List.length_eq_zero]

/-- C8: any failure of the image-verification collaborator on a single check —
a transport/SDK error with any message, or an empty response — is downgraded
by that check's wrapper to the well-formed result {verified: false, extracted
value null, reason carrying the error message}, never raised to the caller
(the wrappers are total functions into `SingleCheckResult`); and within the
full-audit bundle each of the three checks depends only on its own
collaborator outcome, so one failing check cannot abort the other two. -/
theorem collaborator_failure_soft :
    (∀ (img : Option String) (msg : String), strTruthy img = true →
      performAmountCheck img (.failure msg) =
        { verified := false, extractedAmount := none, extractedText := none
          reason := aiErrorReason msg } ∧
      performAmountCheck img .emptyResponse =
        { verified := false, extractedAmount := none, extractedText := none
          reason := aiErrorReason "Empty AI response" }) ∧
    (∀ (target : String) (img : Option String) (msg : String),
      strTruthy img = true → target ≠ "" →
      performTextCheck target img (.failure msg) =
        { verified := false, extractedAmount := none, extractedText := none
          reason := aiErrorReason msg } ∧
      performTextCheck target img .emptyResponse =
        { verified := false, extractedAmount := none, extractedText := none
          reason := aiErrorReason "Empty AI response" }) ∧
    (∀ (sUSD sCNY sOrder : Option String) (orderId apiKey : String)
        (usdO cnyO : AmountOutcome) (orderO : TextOutcome) (ts : Nat),
      apiKey ≠ "" →
      (performFullAudit sUSD sCNY orderId sOrder apiKey usdO cnyO orderO ts).usdCheck =
          performAmountCheck sUSD usdO ∧
      (performFullAudit sUSD sCNY orderId sOrder apiKey usdO cnyO orderO ts).cnyCheck =
          performAmountCheck sCNY cnyO ∧
      (performFullAudit sUSD sCNY orderId sOrder apiKey usdO cnyO orderO ts).orderCheck =
          performTextCheck orderId
            (if strTruthy sOrder then sOrder else sUSD) orderO) := by
  refine ⟨?_, ?_, ?_⟩
  · intro img msg himg
    constructor <;> simp [performAmountCheck, himg]
  · intro target img msg himg htarget
    constructor <;> simp [performTextCheck, himg, htarget]
  · intro sUSD sCNY sOrder orderId apiKey usdO cnyO orderO ts hkey
    refine ⟨?_, ?_, ?_⟩ <;> simp [performFullAudit, hkey]

/-- Witness for the C8 theorem: a concrete transport error on the USD check. -/
theorem collaborator_failure_soft_witness :
    performAmountCheck (some "img") (.failure "network down") =
      { verified := false, extractedAmount := none, extractedText := none
        reason := aiErrorReason "network down" } :=
  (collaborator_failure_soft.1 (some "img") "network down" (by decide)).1

/-- Helper: the newest-first ordering produced by the store query. -/
lemma orderedRows_sorted (store : List StoreRow) (u : User) :
    (orderedRows store u).Pairwise (fun a b => b.rowCreatedAt ≤ a.rowCreatedAt) := by
  have h := @List.sorted_mergeSort StoreRow
    (fun a b : StoreRow => decide (b.rowCreatedAt ≤ a.rowCreatedAt))
    (fun a b c h₁ h₂ => by simp at h₁ h₂ ⊢; omega)
    (fun a b => by simp; omega)
    (scopedRows store u)
  exact h.imp (fun hab => by simpa using hab)

/-- C10: the claim-listing operation returns the empty list on any store
error, returns at most 500 claims, restricts a non-admin's view to rows owned
by the requesting user, and the 500 rows kept are sorted newest-first and are
all at least as new as every row dropped by the limit — so the duplicate
guard and the identifier generator, which consume this snapshot, operate on a
possibly truncated or empty view of the full claim set. -/
theorem list_claims_bounded (store : List StoreRow) (err : Bool) (u : User) :
    (err = true → getReimbursements store err u = []) ∧
    (getReimbursements store err u).length ≤ 500 ∧
    (u.role ≠ .admin → ∀ x ∈ getReimbursements store err u,
      ∃ r ∈ store, r.rowUserId = u.id ∧ x = rowToItem r) ∧
    (limitedRows store u).Pairwise (fun a b => b.rowCreatedAt ≤ a.rowCreatedAt) ∧
    (∀ a ∈ limitedRows store u, ∀ b ∈ (orderedRows store u).drop 500,
      b.rowCreatedAt ≤ a.rowCreatedAt) := by
  refine ⟨?_, ?_, ?_, ?_, ?_⟩
  · intro he
    simp [getReimbursements, he]
  · cases err with
    | true => simp [getReimbursements]
    | false =>
        rw [show getReimbursements store false u = (limitedRows store u).map rowToItem
          from rfl, List.length_map]
        exact List.length_take_le 500 _
  · intro hrole x hx
    cases err with
    | true => simp [getReimbursements] at hx
    | false =>
        rw [show getReimbursements store false u = (limitedRows store u).map rowToItem
          from rfl] at hx
        obtain ⟨r, hr, rfl⟩ := List.mem_map.mp hx
        have hr₁ : r ∈ orderedRows store u := List.mem_of_mem_take hr
        have hr₂ : r ∈ scopedRows store u := List.mem_mergeSort.mp hr₁
        rw [scopedRows, if_pos hrole] at hr₂
        obtain ⟨hmem, hpred⟩ := List.mem_filter.mp hr₂
        exact ⟨r, hmem, beq_iff_eq.mp hpred, rfl⟩
  · exact (orderedRows_sorted store u).sublist (List.take_sublist 500 _)
  · have hp := orderedRows_sorted store u
    rw [← List.take_append_drop 500 (orderedRows store u)] at hp
    exact fun a ha b hb => (List.pairwise_append.mp hp).2.2 a ha b hb

/-- Witness for the C10 theorem: a store error yields the empty snapshot. -/
theorem list_claims_bounded_witness : getReimbursements [] true zsUser = [] :=
  (list_claims_bounded [] true zsUser).1 rfl

end Reimburse
